import Mathlib

/-!
Verification development for the sheepdog-ng core: a shallow embedding of the
VDI object-splitting I/O engine (the client library file containing
vdi_rw_request and vdi_create_respond) and of the server operation handlers in
sheep/ops.c (cluster_make_fs, cluster_force_recover_work,
cluster_force_recover_main, cluster_recovery_completion, the sd_ops table and
is_force_op), together with theorems about them.

C machine integers are modelled as Nat; the only places where wrap-around is
semantically relevant are the oid packing helpers, written with explicit
mod 2 ^ 32.
-/

/-! ## Constants -/

/-- Size in bytes of one fixed data object (SD_DATA_OBJ_SIZE, 4 MB). -/
def SD_DATA_OBJ_SIZE : Nat := 4194304

/-- Size of the inode header that precedes the data_vdi_id index array.
The exact value is not pinned by the files under src; every theorem uses it
symbolically only. -/
def SD_INODE_HEADER_SIZE : Nat := 4096

/-- Size of a vid slot in the inode index array: sizeof(uint32_t) = 4. -/
def sizeof_vid : Nat := 4

/-- Size of struct sd_node. The exact value is not pinned by the files under
src; it is used symbolically only. -/
def sizeof_sd_node : Nat := 128

/-! Result codes. The numeric values are not pinned by the files under src
(the shared protocol header is external); only SD_RES_SUCCESS = 0 and the
distinctness of the codes is ever used. -/

def SD_RES_SUCCESS : Nat := 0
def SD_RES_NO_STORE : Nat := 32
def SD_RES_FORCE_RECOVER : Nat := 35
def SD_RES_INVALID_PARMS : Nat := 9
def SD_RES_EIO : Nat := 22

/-! ## Object id packing

Modelled from the spec: an oid is a 64-bit identifier combining a vid and a
data-object index (the packing macros live in a protocol header that is not
under src). A data oid packs the 32-bit vid above the 32-bit index; a vdi
(inode) oid additionally sets the top bit. -/

/-- Modelled from the spec: vid_to_data_oid packs vid in the high 32 bits and
the object index in the low 32 bits. -/
def vid_to_data_oid (vid idx : Nat) : Nat :=
  vid % 2 ^ 32 * 2 ^ 32 + idx % 2 ^ 32

/-- Modelled from the spec: vid_to_vdi_oid marks the inode object of a vid
with the VDI bit above the packed vid. -/
def vid_to_vdi_oid (vid : Nat) : Nat :=
  2 ^ 63 + vid % 2 ^ 32 * 2 ^ 32

/-- Modelled from the spec: data_oid_to_idx recovers the index part of a data
oid. -/
def data_oid_to_idx (oid : Nat) : Nat := oid % 2 ^ 32

/-! ## The splitting loop of vdi_rw_request -/

/-- The do/while splitting loop of vdi_rw_request, as the list of
(idx, start, len) triples of the sub-requests it allocates, one per loop
iteration. Parameters mirror the C locals: idx is the data object index,
start the intra-object offset, len the current sub-request length and total
the remaining byte count. The loop exit test is the do/while guard
(total - len = 0 after the subtraction at the bottom of the body); the extra
len = 0 disjunct only serves termination and is unreachable from
vdi_rw_splits, whose initial len is positive whenever total is. -/
def splitAux (idx start len total : Nat) : List (Nat × Nat × Nat) :=
  (idx, start, len) ::
    (if h : total - len = 0 ∨ len = 0 then []
     else splitAux (idx + 1) ((start + len) % SD_DATA_OBJ_SIZE)
            (min SD_DATA_OBJ_SIZE (total - len)) (total - len))
termination_by total
decreasing_by
  push_neg at h
  omega

/-- The sub-requests vdi_rw_request allocates for a logical request at byte
offset offset of length total: start = offset % SD_DATA_OBJ_SIZE,
idx = offset / SD_DATA_OBJ_SIZE, and the initial len is
SD_DATA_OBJ_SIZE - start capped at total. -/
def vdi_rw_splits (offset total : Nat) : List (Nat × Nat × Nat) :=
  splitAux (offset / SD_DATA_OBJ_SIZE) (offset % SD_DATA_OBJ_SIZE)
    (min (SD_DATA_OBJ_SIZE - offset % SD_DATA_OBJ_SIZE) total) total

/-! ## The aiocb sub-request counter

vdi_rw_request takes one extra reference on aiocb.nr_requests before the loop
(uatomic_inc, line 35) and drops it after the loop with
uatomic_sub_return <= 0 firing aio_done_func (lines 97 to 98). Modelled from
the spec for the parts not under src: allocating a sub-request increments the
live counter, and end_sheep_request decrements it the same way, firing the
completion callback when it reaches zero. The counter algebra is the two
events below. -/

inductive AioEvent
  | inc
  | dec
deriving DecidableEq

/-- The aiocb completion bookkeeping state: the nr_requests counter and how
many times the completion callback has fired. -/
structure AioState where
  counter : Int
  fired : Nat
deriving DecidableEq

/-- One counter event: inc is uatomic_inc(nr_requests); dec is
uatomic_sub_return(nr_requests, 1) followed by the <= 0 test that fires
aio_done_func. -/
def aio_step (s : AioState) (e : AioEvent) : AioState :=
  match e with
  | .inc => { s with counter := s.counter + 1 }
  | .dec =>
      let c := s.counter - 1
      { counter := c, fired := if c ≤ 0 then s.fired + 1 else s.fired }

/-- Run a sequence of counter events. -/
def aio_run (s : AioState) (t : List AioEvent) : AioState := t.foldl aio_step s

/-- Number of increments in a trace. -/
def incs (t : List AioEvent) : Nat := t.count .inc

/-- Number of decrements in a trace. -/
def decs (t : List AioEvent) : Nat := t.count .dec

/-- A well-formed loop trace: only already-allocated sub-requests can
complete, so every prefix has at least as many increments as decrements. -/
def loop_trace_ok (t : List AioEvent) : Prop :=
  ∀ p ∈ t.inits, decs p ≤ incs p

instance (t : List AioEvent) : Decidable (loop_trace_ok t) := by
  unfold loop_trace_ok; infer_instance

/-! ## Per-iteration request processing of vdi_rw_request -/

/-- The client-side opcodes of the sd_op_template table in the same file as
vdi_rw_request. -/
inductive SDOpcode
  | vdi_read
  | vdi_write
  | vdi_create
deriving DecidableEq

/-- One object-level sub-request (struct sheep_request): target oid, the
copy-on-write source oid (0 when none), opcode, intra-object offset and
length. -/
structure SheepRequest where
  oid : Nat
  cow_oid : Nat
  opcode : SDOpcode
  offset : Nat
  length : Nat
deriving DecidableEq

/-- What one loop iteration of vdi_rw_request does with its sub-request:
submit it to the store, park it on the blocking list, or complete it
immediately (end_sheep_request). -/
inductive SubAction
  | submitted (r : SheepRequest)
  | blocked (r : SheepRequest)
  | ended (r : SheepRequest)
deriving DecidableEq

/-- The client-side shared state vdi_rw_request touches: the inode index map
of the target VDI (index to owning vid, 0 meaning unallocated), the
inflight-create index (oids of creates in flight; modelled from the spec,
the list itself is not under src) and the blocking queue (c.blocking_list,
FIFO). -/
structure ClusterSt where
  inode : Nat → Nat
  inflight : List Nat
  blocking : List SheepRequest

/-- Modelled from the spec: submit_sheep_request records the oid of an
in-flight create in the inflight-create index (its body is not under src);
submitting a read or write leaves the index unchanged. -/
def submit_req (c : ClusterSt) (r : SheepRequest) : ClusterSt :=
  if r.opcode = .vdi_create then { c with inflight := c.inflight ++ [r.oid] }
  else c

/-- One iteration of the vdi_rw_request loop body (lines 37 to 95 of the file
containing it), for a VDI whose own vid is own, at object index idx with
sub-request length len and intra-object offset start. Follows the source
exactly: look up the owning vid; redirect the oid (read from ancestor) or set
the cow oid (write to ancestor); submit directly when the index is owned and
no copy-on-write is needed; otherwise a write checks the inflight-create
index, re-checks the inode entry under the blocking lock before parking on
the blocking queue, or turns into a VDI_CREATE; a read of an unallocated
index is ended on the spot. -/
def rw_request_step (c : ClusterSt) (op : SDOpcode) (own idx len start : Nat) :
    ClusterSt × SubAction :=
  let oid0 := vid_to_data_oid own idx
  let vid := c.inode idx
  let oc : Nat × Nat :=
    if vid ≠ 0 ∧ vid ≠ own then
      if op = .vdi_write then (oid0, vid_to_data_oid vid idx)
      else (vid_to_data_oid vid idx, 0)
    else (oid0, 0)
  let req : SheepRequest :=
    { oid := oc.1, cow_oid := oc.2, opcode := op, offset := start, length := len }
  if vid ≠ 0 ∧ oc.2 = 0 then (submit_req c req, .submitted req)
  else
    match op with
    | .vdi_write =>
        if c.inflight.contains req.oid then
          -- sd_write_lock(blocking_lock); re-check the inode entry
          let tmp_vid := c.inode idx
          if tmp_vid ≠ 0 ∧ tmp_vid = own then (c, .submitted req)
          else ({ c with blocking := c.blocking ++ [req] }, .blocked req)
        else
          let req2 : SheepRequest := { req with opcode := .vdi_create }
          (submit_req c req2, .submitted req2)
    | .vdi_read => (c, .ended req)
    | .vdi_create => (submit_req c req, .submitted req)

/-- Modelled from the spec: the content a read sub-request yields when it is
completed without ever being submitted to the object store is logically
zero-filled (buffer handling lives in end_sheep_request, not under src). -/
def ended_read_content (r : SheepRequest) : List Nat :=
  List.replicate r.length 0

/-! ## vdi_create_respond -/

/-- The observable steps vdi_create_respond performs, in program order. -/
inductive RespondEvent
  | lockW
  | unlockW
  | inodeSet (idx vid : Nat)
  | submitReq (r : SheepRequest)
  | endReq (r : SheepRequest)
deriving DecidableEq

/-- Shallow embedding of vdi_create_respond (lines 103 to 140 of the file
containing vdi_rw_request), for the create sub-request req of a VDI whose own
vid is own. It builds the inode-slot write new (sizeof(vid) bytes at offset
SD_INODE_HEADER_SIZE + sizeof(vid) * idx of the inode object), updates the
inode index entry under the per-VDI writer lock, submits new, resubmits the
blocking sub-requests waiting on req.oid in FIFO order
(submit_blocking_sheep_request, modelled from the spec: it also removes the
oid from the inflight-create index, both bodies being outside src), and
finally ends req. The returned event list is the program order of these
steps. -/
def vdi_create_respond (c : ClusterSt) (own : Nat) (req : SheepRequest) :
    ClusterSt × List RespondEvent :=
  let vid := own
  let oid := vid_to_vdi_oid vid
  let idx := data_oid_to_idx req.oid
  let new : SheepRequest :=
    { oid := oid, cow_oid := 0, opcode := .vdi_write,
      offset := SD_INODE_HEADER_SIZE + sizeof_vid * idx, length := sizeof_vid }
  let resubmitted := c.blocking.filter (fun r => r.oid == req.oid)
  let c1 : ClusterSt :=
    { inode := Function.update c.inode idx vid,
      inflight := c.inflight.erase req.oid,
      blocking := c.blocking.filter (fun r => !(r.oid == req.oid)) }
  (c1,
    [RespondEvent.lockW, RespondEvent.inodeSet idx vid, RespondEvent.unlockW,
     RespondEvent.submitReq new]
      ++ resubmitted.map RespondEvent.submitReq
      ++ [RespondEvent.endReq req])

/-- Respond handlers of the client op table. -/
inductive RespondProc
  | end_request
  | create_respond
deriving DecidableEq

/-- One entry of the client op table (the sd_ops array in the file containing
vdi_rw_request): whether it has a request_process handler (vdi_rw_request)
and which respond_process handler it carries. -/
structure client_op where
  has_request : Bool
  respond : RespondProc
deriving DecidableEq

/-- The client op table: VDI_READ and VDI_WRITE are driven by vdi_rw_request
and completed by end_sheep_request; VDI_CREATE is only ever submitted by
vdi_rw_request and completed by vdi_create_respond. -/
def client_sd_ops : SDOpcode → client_op
  | .vdi_read => ⟨true, .end_request⟩
  | .vdi_write => ⟨true, .end_request⟩
  | .vdi_create => ⟨false, .create_respond⟩

/-! ## cluster_recovery_completion (ops.c lines 656 to 744) -/

/-- The static accumulator of cluster_recovery_completion: the newest epoch
seen and the sorted array of nodes reported recovered for it. Nodes are
abstracted to their identity, with node_cmp the order on Nat. -/
structure RecoverySt where
  latest_epoch : Nat
  recovereds : List Nat
deriving DecidableEq

/-- Second half of the non-manual path of cluster_recovery_completion,
starting after the stale-report drop and the accumulator reset: append the
reporting node, keep the array sorted (xqsort), return early unless the
report is for the current sys epoch, and trigger cleanup when the recovered
count equals the view size, every recovered node is found in the view, and
the zone count reaches max_strip with the store hook present. -/
def recovery_note (sys_epoch : Nat) (view : List Nat)
    (nr_zones max_strip : Nat) (has_cleanup : Bool)
    (st1 : RecoverySt) (node : Nat) : RecoverySt × Bool :=
  let recs := (st1.recovereds ++ [node]).insertionSort (· ≤ ·)
  let st2 : RecoverySt := ⟨st1.latest_epoch, recs⟩
  if sys_epoch ≠ st2.latest_epoch then (st2, false)
  else if view.length = recs.length ∧ (∀ n ∈ recs, n ∈ view)
          ∧ max_strip ≤ nr_zones ∧ has_cleanup = true then (st2, true)
  else (st2, false)

/-- Shallow embedding of cluster_recovery_completion in non-manual mode (the
path taken when SD_CLUSTER_FLAG_MANUAL is unset): sys_epoch is
sys.cinfo.epoch, view the node set of the current vnode_info, nr_zones its
zone count, max_strip the value of ec_max_data_strip(), has_cleanup whether
sd_store is present with a cleanup hook, and (epoch, node) the incoming
report. Returns the updated accumulator and whether sd_store.cleanup was
triggered. Reports older than the newest epoch seen are dropped; a newer
epoch resets the accumulator; the rest is recovery_note. -/
def cluster_recovery_completion (sys_epoch : Nat) (view : List Nat)
    (nr_zones max_strip : Nat) (has_cleanup : Bool)
    (st : RecoverySt) (epoch node : Nat) : RecoverySt × Bool :=
  if epoch < st.latest_epoch then (st, false)
  else recovery_note sys_epoch view nr_zones max_strip has_cleanup
    (if st.latest_epoch < epoch then RecoverySt.mk epoch [] else st) node

/-- Fold cluster_recovery_completion over a list of (epoch, node) reports,
counting how many of them triggered cleanup. -/
def recovery_run (sys_epoch : Nat) (view : List Nat)
    (nr_zones max_strip : Nat) (has_cleanup : Bool)
    (st : RecoverySt) : List (Nat × Nat) → RecoverySt × Nat
  | [] => (st, 0)
  | rp :: rest =>
      let r := cluster_recovery_completion sys_epoch view nr_zones max_strip
        has_cleanup st rp.1 rp.2
      let tail := recovery_run sys_epoch view nr_zones max_strip has_cleanup
        r.1 rest
      (tail.1, (if r.2 then 1 else 0) + tail.2)

/-! ## cluster_make_fs and the forced-recovery handlers -/

/-- Cluster status values relevant to the modelled handlers. -/
inductive SDStatus
  | OK
  | WAIT
  | SHUTDOWN
  | KILLED
deriving DecidableEq

/-- The part of the global sys state the modelled handlers read and write:
sys.cinfo.epoch and sys.cinfo.status. -/
structure SysSt where
  epoch : Nat
  status : SDStatus
deriving DecidableEq

/-- Shallow embedding of cluster_make_fs (ops.c lines 291 to 344).
driver_found is whether find_store_driver succeeded; format_ret and init_ret
are the results of sd_store.format() and sd_store.init(); inc_ok is whether
inc_and_log_epoch succeeded (modelled from the spec: it advances the epoch by
one and logs it, the body being outside src). Effects on fields outside SysSt
(store name, copies, epoch-file removal, vdi bitmap) are not modelled.
Returns the result code and the final sys state. -/
def cluster_make_fs (driver_found : Bool) (format_ret init_ret : Nat)
    (inc_ok : Bool) (st : SysSt) : Nat × SysSt :=
  if !driver_found then ( SD_RES_NO_STORE, st)
  else if format_ret ≠ SD_RES_SUCCESS then (format_ret, st)
  else if init_ret ≠ SD_RES_SUCCESS then (init_ret, st)
  else
    let st1 : SysSt := { st with epoch := 0 }
    let st2 : SysSt := { st1 with epoch := st1.epoch + 1 }
    if !inc_ok then ( SD_RES_EIO, st2)
    else ( SD_RES_SUCCESS, { st2 with status := .OK })

/-- Shallow embedding of cluster_force_recover_work (ops.c lines 560 to 594).
status is sys.cinfo.status, has_vinfo whether req.vinfo is non-NULL,
old_vinfo the node count of the vnode info for the current epoch (none when
get_vnode_info_epoch failed), data_length the request buffer size and epoch
the current sys epoch. Returns the result code and, on success, the epoch
recorded into rsp.epoch. -/
def cluster_force_recover_work (status : SDStatus) (has_vinfo : Bool)
    (old_vinfo : Option Nat) (data_length epoch : Nat) : Nat × Option Nat :=
  if status ≠ .WAIT ∨ !has_vinfo then ( SD_RES_FORCE_RECOVER, none)
  else
    match old_vinfo with
    | none => ( SD_RES_FORCE_RECOVER, none)
    | some nr_nodes =>
        if data_length < sizeof_sd_node * nr_nodes then
          ( SD_RES_INVALID_PARMS, none)
        else ( SD_RES_SUCCESS, some epoch)

/-- Shallow embedding of cluster_force_recover_main (ops.c lines 596 to 634).
rsp_epoch is the epoch the work phase recorded into rsp.epoch; inc_ok is
whether inc_and_log_epoch succeeded. none models the panic on the err path
(the process dies instead of returning a code); recovery start and vnode
bookkeeping are not modelled. -/
def cluster_force_recover_main (rsp_epoch : Nat) (inc_ok : Bool) (st : SysSt) :
    Option (Nat × SysSt) :=
  if rsp_epoch ≠ st.epoch then some ( SD_RES_FORCE_RECOVER, st)
  else if !inc_ok then none
  else some ( SD_RES_SUCCESS, { st with epoch := st.epoch + 1, status := .OK })

/-! ## The server operation table (ops.c lines 1219 to 1622) -/

/-- The execution classes of enum sd_op_type. -/
inductive SdOpType
  | CLUSTER
  | LOCAL
  | PEER
  | GATEWAY
  | NONE
deriving DecidableEq

/-- One entry of struct sd_op_template, restricted to the fields the claims
are about; handlers are tracked by presence. Defaults mirror the zero
initialization of the C designated initializers. -/
structure sd_op_template where
  type : SdOpType
  force : Bool := false
  is_admin_op : Bool := false
  has_process_work : Bool := false
  has_process_main : Bool := false
deriving DecidableEq

/-- The opcodes that appear in the sd_ops table of ops.c. -/
inductive SDOp
  | SD_OP_GET_NID
  | SD_OP_NEW_VDI
  | SD_OP_DEL_VDI
  | SD_OP_MAKE_FS
  | SD_OP_SHUTDOWN
  | SD_OP_GET_VDI_ATTR
  | SD_OP_FORCE_RECOVER
  | SD_OP_NOTIFY_VDI_ADD
  | SD_OP_DELETE_CACHE
  | SD_OP_COMPLETE_RECOVERY
  | SD_OP_GET_VDI_INFO
  | SD_OP_LOCK_VDI
  | SD_OP_RELEASE_VDI
  | SD_OP_REWEIGHT
  | SD_OP_ALTER_CLUSTER_COPY
  | SD_OP_GET_STORE_LIST
  | SD_OP_READ_VDIS
  | SD_OP_GET_NODE_LIST
  | SD_OP_STAT_SHEEP
  | SD_OP_STAT_RECOVERY
  | SD_OP_STAT_CLUSTER
  | SD_OP_GET_OBJ_LIST
  | SD_OP_GET_EPOCH
  | SD_OP_FLUSH_VDI
  | SD_OP_DISCARD_OBJ
  | SD_OP_FLUSH_DEL_CACHE
  | SD_OP_TRACE_ENABLE
  | SD_OP_TRACE_DISABLE
  | SD_OP_TRACE_STATUS
  | SD_OP_TRACE_READ_BUF
  | SD_OP_LIVEPATCH_PATCH
  | SD_OP_LIVEPATCH_UNPATCH
  | SD_OP_LIVEPATCH_STATUS
  | SD_OP_KILL_NODE
  | SD_OP_MD_INFO
  | SD_OP_MD_PLUG
  | SD_OP_MD_UNPLUG
  | SD_OP_GET_HASH
  | SD_OP_GET_CACHE_INFO
  | SD_OP_CACHE_PURGE
  | SD_OP_STAT
  | SD_OP_GET_LOGLEVEL
  | SD_OP_SET_LOGLEVEL
  | SD_OP_EXIST
  | SD_OP_OIDS_EXIST
  | SD_OP_CLUSTER_INFO
  | SD_OP_NFS_CREATE
  | SD_OP_NFS_DELETE
  | SD_OP_REPAIR_REPLICA
  | SD_OP_GET_CLUSTER_DEFAULT
  | SD_OP_CREATE_AND_WRITE_OBJ
  | SD_OP_READ_OBJ
  | SD_OP_WRITE_OBJ
  | SD_OP_REMOVE_OBJ
  | SD_OP_UNREF_OBJ
  | SD_OP_CREATE_AND_WRITE_PEER
  | SD_OP_READ_PEER
  | SD_OP_WRITE_PEER
  | SD_OP_REMOVE_PEER
deriving DecidableEq

/-- The sd_ops table of ops.c, entry by entry (the NFS entries are the
HAVE_NFS build; they spell force = false explicitly in the source). -/
def sd_ops : SDOp → sd_op_template
  | .SD_OP_GET_NID =>
      { type := .NONE, force := true, has_process_work := true }
  | .SD_OP_NEW_VDI =>
      { type := .CLUSTER, is_admin_op := true, has_process_work := true,
        has_process_main := true }
  | .SD_OP_DEL_VDI =>
      { type := .CLUSTER, is_admin_op := true, has_process_work := true,
        has_process_main := true }
  | .SD_OP_MAKE_FS =>
      { type := .CLUSTER, force := true, is_admin_op := true,
        has_process_main := true }
  | .SD_OP_SHUTDOWN =>
      { type := .CLUSTER, force := true, is_admin_op := true,
        has_process_main := true }
  | .SD_OP_GET_VDI_ATTR =>
      { type := .CLUSTER, has_process_work := true }
  | .SD_OP_FORCE_RECOVER =>
      { type := .CLUSTER, force := true, is_admin_op := true,
        has_process_work := true, has_process_main := true }
  | .SD_OP_NOTIFY_VDI_ADD =>
      { type := .CLUSTER, force := true, has_process_main := true }
  | .SD_OP_DELETE_CACHE =>
      { type := .CLUSTER, has_process_main := true }
  | .SD_OP_COMPLETE_RECOVERY =>
      { type := .CLUSTER, force := true, has_process_main := true }
  | .SD_OP_GET_VDI_INFO =>
      { type := .CLUSTER, has_process_work := true }
  | .SD_OP_LOCK_VDI =>
      { type := .CLUSTER, has_process_work := true }
  | .SD_OP_RELEASE_VDI =>
      { type := .CLUSTER, has_process_work := true }
  | .SD_OP_REWEIGHT =>
      { type := .CLUSTER, is_admin_op := true, has_process_work := true,
        has_process_main := true }
  | .SD_OP_ALTER_CLUSTER_COPY =>
      { type := .CLUSTER, is_admin_op := true, has_process_main := true }
  | .SD_OP_GET_STORE_LIST =>
      { type := .LOCAL, force := true, has_process_work := true }
  | .SD_OP_READ_VDIS =>
      { type := .LOCAL, force := true, has_process_main := true }
  | .SD_OP_GET_NODE_LIST =>
      { type := .LOCAL, force := true, has_process_main := true }
  | .SD_OP_STAT_SHEEP =>
      { type := .LOCAL, has_process_work := true }
  | .SD_OP_STAT_RECOVERY =>
      { type := .LOCAL, has_process_main := true }
  | .SD_OP_STAT_CLUSTER =>
      { type := .LOCAL, force := true, has_process_work := true }
  | .SD_OP_GET_OBJ_LIST =>
      { type := .LOCAL, has_process_work := true }
  | .SD_OP_GET_EPOCH =>
      { type := .LOCAL, has_process_work := true }
  | .SD_OP_FLUSH_VDI =>
      { type := .LOCAL, has_process_work := true }
  | .SD_OP_DISCARD_OBJ =>
      { type := .LOCAL, has_process_work := true }
  | .SD_OP_FLUSH_DEL_CACHE =>
      { type := .LOCAL, has_process_work := true }
  | .SD_OP_TRACE_ENABLE =>
      { type := .LOCAL, force := true, has_process_main := true }
  | .SD_OP_TRACE_DISABLE =>
      { type := .LOCAL, force := true, has_process_main := true }
  | .SD_OP_TRACE_STATUS =>
      { type := .LOCAL, force := true, has_process_main := true }
  | .SD_OP_TRACE_READ_BUF =>
      { type := .LOCAL, force := true, has_process_work := true }
  | .SD_OP_LIVEPATCH_PATCH =>
      { type := .CLUSTER, force := true, has_process_main := true }
  | .SD_OP_LIVEPATCH_UNPATCH =>
      { type := .CLUSTER, force := true, has_process_main := true }
  | .SD_OP_LIVEPATCH_STATUS =>
      { type := .LOCAL, force := true, has_process_main := true }
  | .SD_OP_KILL_NODE =>
      { type := .LOCAL, force := true, is_admin_op := true,
        has_process_main := true }
  | .SD_OP_MD_INFO =>
      { type := .LOCAL, has_process_work := true }
  | .SD_OP_MD_PLUG =>
      { type := .LOCAL, is_admin_op := true, has_process_main := true }
  | .SD_OP_MD_UNPLUG =>
      { type := .LOCAL, is_admin_op := true, has_process_main := true }
  | .SD_OP_GET_HASH =>
      { type := .LOCAL, has_process_work := true }
  | .SD_OP_GET_CACHE_INFO =>
      { type := .LOCAL, has_process_work := true }
  | .SD_OP_CACHE_PURGE =>
      { type := .LOCAL, has_process_work := true }
  | .SD_OP_STAT =>
      { type := .LOCAL, has_process_main := true }
  | .SD_OP_GET_LOGLEVEL =>
      { type := .LOCAL, force := true, has_process_work := true }
  | .SD_OP_SET_LOGLEVEL =>
      { type := .LOCAL, force := true, has_process_work := true }
  | .SD_OP_EXIST =>
      { type := .LOCAL, force := true, has_process_work := true }
  | .SD_OP_OIDS_EXIST =>
      { type := .LOCAL, force := true, has_process_main := true }
  | .SD_OP_CLUSTER_INFO =>
      { type := .LOCAL, force := true, has_process_main := true }
  | .SD_OP_NFS_CREATE =>
      { type := .LOCAL, force := false, has_process_work := true }
  | .SD_OP_NFS_DELETE =>
      { type := .LOCAL, force := false, has_process_work := true }
  | .SD_OP_REPAIR_REPLICA =>
      { type := .LOCAL, has_process_work := true }
  | .SD_OP_GET_CLUSTER_DEFAULT =>
      { type := .LOCAL, force := true, has_process_main := true }
  | .SD_OP_CREATE_AND_WRITE_OBJ =>
      { type := .GATEWAY, has_process_work := true }
  | .SD_OP_READ_OBJ =>
      { type := .GATEWAY, has_process_work := true }
  | .SD_OP_WRITE_OBJ =>
      { type := .GATEWAY, has_process_work := true }
  | .SD_OP_REMOVE_OBJ =>
      { type := .GATEWAY, has_process_work := true }
  | .SD_OP_UNREF_OBJ =>
      { type := .GATEWAY, has_process_work := true }
  | .SD_OP_CREATE_AND_WRITE_PEER =>
      { type := .PEER, has_process_work := true }
  | .SD_OP_READ_PEER =>
      { type := .PEER, has_process_work := true }
  | .SD_OP_WRITE_PEER =>
      { type := .PEER, has_process_work := true }
  | .SD_OP_REMOVE_PEER =>
      { type := .PEER, has_process_work := true }

/-- get_sd_op (ops.c lines 1624 to 1630): every opcode of the SDOp enumeration
has a table entry with a nonzero type, so the NULL branch for unpopulated
slots never applies to them. -/
def get_sd_op (op : SDOp) : Option sd_op_template := some (sd_ops op)

/-- is_force_op (ops.c lines 1665 to 1668). -/
def is_force_op (op : Option sd_op_template) : Bool :=
  match op with
  | none => false
  | some o => o.force

/-! ## Helper lemmas -/

theorem SD_DATA_OBJ_SIZE_pos : 0 < SD_DATA_OBJ_SIZE := by
  norm_num [SD_DATA_OBJ_SIZE]

/-- Iteration count of the splitting loop: with a valid intra-object start
and the initial len of the source, the loop runs once per spanned object. -/
theorem splitAux_length (total : Nat) : ∀ idx start len,
    start < SD_DATA_OBJ_SIZE → 0 < total →
    len = min (SD_DATA_OBJ_SIZE - start) total →
    (splitAux idx start len total).length
      = (start + total - 1) / SD_DATA_OBJ_SIZE + 1 := by
  induction total using Nat.strong_induction_on with
  | _ total ih =>
    intro idx start len hs ht hlen
    rw [splitAux]
    by_cases hcase : total ≤ SD_DATA_OBJ_SIZE - start
    · have hd : total - len = 0 := by omega
      rw [dif_pos (Or.inl hd)]
      have hlt : start + total - 1 < SD_DATA_OBJ_SIZE := by omega
      simp [Nat.div_eq_of_lt hlt]
    · push_neg at hcase
      have hlen2 : len = SD_DATA_OBJ_SIZE - start := by omega
      have hrem : 0 < total - len := by omega
      have hguard : ¬ (total - len = 0 ∨ len = 0) := by omega
      rw [dif_neg hguard]
      have hstart2 : (start + len) % SD_DATA_OBJ_SIZE = 0 := by
        have hsum : start + len = SD_DATA_OBJ_SIZE := by omega
        rw [hsum, Nat.mod_self]
      rw [hstart2]
      have hrec := ih (total - len) (by omega) (idx + 1) 0
        (min SD_DATA_OBJ_SIZE (total - len)) SD_DATA_OBJ_SIZE_pos hrem
        (by rw [Nat.sub_zero])
      rw [List.length_cons, hrec]
      have hsplit : start + total - 1 = (0 + (total - len) - 1) + SD_DATA_OBJ_SIZE := by
        omega
      rw [hsplit, Nat.add_div_right _ SD_DATA_OBJ_SIZE_pos]

/-- The splitting loop of vdi_rw_request executes exactly once when the
request length is zero. -/
theorem vdi_rw_splits_length_zero (offset : Nat) :
    (vdi_rw_splits offset 0).length = 1 := by
  rw [vdi_rw_splits, splitAux]
  have : (0 : Nat) - min (SD_DATA_OBJ_SIZE - offset % SD_DATA_OBJ_SIZE) 0 = 0 := by
    omega
  rw [dif_pos (Or.inl this)]
  rfl

/-- For a positive request length the loop allocates one sub-request per
spanned data object: last spanned index minus first spanned index plus one. -/
theorem vdi_rw_splits_length_pos (offset total : Nat) (ht : 0 < total) :
    (vdi_rw_splits offset total).length
      = (offset + total - 1) / SD_DATA_OBJ_SIZE
          - offset / SD_DATA_OBJ_SIZE + 1 := by
  rw [vdi_rw_splits,
    splitAux_length total _ _ _ (Nat.mod_lt _ SD_DATA_OBJ_SIZE_pos) ht rfl]
  have hmod := Nat.div_add_mod offset SD_DATA_OBJ_SIZE
  have hsum : offset + total - 1
      = SD_DATA_OBJ_SIZE * (offset / SD_DATA_OBJ_SIZE)
        + (offset % SD_DATA_OBJ_SIZE + total - 1) := by
    omega
  rw [hsum, Nat.mul_add_div SD_DATA_OBJ_SIZE_pos, Nat.add_sub_cancel_left]

theorem aio_run_append (s : AioState) (t u : List AioEvent) :
    aio_run s (t ++ u) = aio_run (aio_run s t) u := by
  simp [aio_run, List.foldl_append]

/-- While every prefix of the loop trace has completed no more sub-requests
than it has allocated, the extra reference keeps the counter at least one, so
the completion callback never fires during the loop. -/
theorem aio_run_loop (t : List AioEvent) (h : loop_trace_ok t) :
    aio_run ⟨1, 0⟩ t = ⟨1 + (incs t : Int) - (decs t : Int), 0⟩ := by
  induction t using List.reverseRecOn with
  | nil => simp [aio_run, incs, decs]
  | append_singleton t e ih =>
    have ht : loop_trace_ok t := by
      intro p hp
      refine h p ?_
      rw [List.mem_inits] at hp ⊢
      exact hp.trans (t.prefix_append [e])
    rw [aio_run_append, ih ht]
    cases e with
    | inc =>
      simp only [aio_run, List.foldl_cons, List.foldl_nil, aio_step, incs,
        decs, List.count_append]
      simp [AioState.mk.injEq]
      omega
    | dec =>
      have hd : decs (t ++ [AioEvent.dec]) ≤ incs (t ++ [AioEvent.dec]) := by
        refine h _ ?_
        rw [List.mem_inits]
      simp only [incs, decs, List.count_append, List.count_singleton] at hd ⊢
      simp only [aio_run, List.foldl_cons, List.foldl_nil, aio_step]
      have hpos : ¬ (1 + (t.count AioEvent.inc : Int) - t.count AioEvent.dec - 1 ≤ 0) := by
        simp at hd
        omega
      simp [hpos, AioState.mk.injEq]
      omega

/-- Draining a positive counter with exactly that many completions fires the
callback exactly once, on the last completion. -/
theorem aio_run_replicate_dec (n : Nat) (hn : 0 < n) (f : Nat) :
    aio_run ⟨(n : Int), f⟩ (List.replicate n .dec) = ⟨0, f + 1⟩ := by
  induction n with
  | zero => omega
  | succ m ih =>
    rw [List.replicate_succ]
    by_cases hm : m = 0
    · subst hm
      simp [aio_run, aio_step]
    · have hstep : aio_step ⟨((m + 1 : Nat) : Int), f⟩ .dec = ⟨(m : Int), f⟩ := by
        have h1 : ((m + 1 : Nat) : Int) - 1 = (m : Int) := by push_cast; ring
        have h2 : ¬ ((m : Int) ≤ 0) := by omega
        simp [aio_step, h1, h2]
      show aio_run (aio_step _ .dec) _ = _
      rw [hstep]
      exact ih (by omega)

/-! ## Claim theorems for the splitting loop -/

/-- C1: a logical read/write of positive length spanning N data objects makes
the splitting loop of vdi_rw_request allocate exactly N sub-requests (N being
last spanned index minus first spanned index plus one), and for every
interleaving in which sub-requests complete only after being allocated
(loop_trace_ok), the completion callback fires zero times during the loop —
the extra reference taken before the loop keeps the counter positive — and
exactly once over the whole execution: the release of the extra reference
after the loop followed by the completions of the still-outstanding
sub-requests fire it a single time. -/
theorem vdi_rw_request_splits_and_fires_once
    (offset total : Nat) (t : List AioEvent)
    (htotal : 0 < total)
    (hN : incs t = (vdi_rw_splits offset total).length)
    (hok : loop_trace_ok t) :
    (vdi_rw_splits offset total).length
        = (offset + total - 1) / SD_DATA_OBJ_SIZE
            - offset / SD_DATA_OBJ_SIZE + 1
      ∧ (aio_run ⟨1, 0⟩ t).fired = 0
      ∧ (aio_run ⟨1, 0⟩
            (t ++ AioEvent.dec
              :: List.replicate (incs t - decs t) AioEvent.dec)).fired = 1 := by
  have hDI : decs t ≤ incs t := by
    refine hok t ?_
    rw [List.mem_inits]
  refine ⟨vdi_rw_splits_length_pos offset total htotal, ?_, ?_⟩
  · rw [aio_run_loop t hok]
  · have hcons : t ++ AioEvent.dec
          :: List.replicate (incs t - decs t) AioEvent.dec
        = (t ++ [AioEvent.dec])
            ++ List.replicate (incs t - decs t) AioEvent.dec := by
      simp
    rw [hcons, aio_run_append, aio_run_append, aio_run_loop t hok]
    by_cases hz : incs t = decs t
    · have hstep : aio_run ⟨1 + (incs t : Int) - decs t, 0⟩ [AioEvent.dec]
          = ⟨0, 1⟩ := by
        have h1 : 1 + (incs t : Int) - decs t - 1 = 0 := by omega
        simp [aio_run, aio_step, h1]
      rw [hstep]
      have hzero : incs t - decs t = 0 := by omega
      rw [hzero]
      simp [aio_run]
    · have hpos : 0 < incs t - decs t := by omega
      have hstep : aio_run ⟨1 + (incs t : Int) - decs t, 0⟩ [AioEvent.dec]
          = ⟨((incs t - decs t : Nat) : Int), 0⟩ := by
        have h1 : 1 + (incs t : Int) - decs t - 1
            = ((incs t - decs t : Nat) : Int) := by omega
        have h2 : ¬ (((incs t - decs t : Nat) : Int) ≤ 0) := by omega
        simp [aio_run, aio_step, h1, h2]
      rw [hstep, aio_run_replicate_dec _ hpos 0]

/-- Witness for C1 at offset 0, total 1, with the single allocation completing
only after the loop. -/
theorem vdi_rw_request_splits_and_fires_once_witness :
    (0 < 1 ∧ incs [AioEvent.inc] = (vdi_rw_splits 0 1).length
        ∧ loop_trace_ok [AioEvent.inc])
    ∧ ((vdi_rw_splits 0 1).length
          = (0 + 1 - 1) / SD_DATA_OBJ_SIZE - 0 / SD_DATA_OBJ_SIZE + 1
        ∧ (aio_run ⟨1, 0⟩ [AioEvent.inc]).fired = 0
        ∧ (aio_run ⟨1, 0⟩
              ([AioEvent.inc] ++ AioEvent.dec
                :: List.replicate (incs [AioEvent.inc] - decs [AioEvent.inc])
                    AioEvent.dec)).fired = 1) := by
  have hlen : incs [AioEvent.inc] = (vdi_rw_splits 0 1).length := by
    rw [vdi_rw_splits_length_pos 0 1 Nat.one_pos]
    simp [incs]
  exact ⟨⟨Nat.one_pos, hlen, by decide⟩,
    vdi_rw_request_splits_and_fires_once 0 1 [AioEvent.inc] Nat.one_pos hlen
      (by decide)⟩

/-- C10: the splitting loop of vdi_rw_request terminates on every input — the
Lean recursion splitAux is well-founded on the remaining byte count, each
iteration with remaining length positive strictly decreasing it — and the
iteration count is exact: one iteration (a zero-length sub-request) when the
request length is 0, and one iteration per spanned data object otherwise. -/
theorem vdi_rw_request_loop_terminates (offset total : Nat) :
    (vdi_rw_splits offset total).length
      = if total = 0 then 1
        else (offset + total - 1) / SD_DATA_OBJ_SIZE
              - offset / SD_DATA_OBJ_SIZE + 1 := by
  by_cases h0 : total = 0
  · rw [h0, if_pos rfl, vdi_rw_splits_length_zero]
  · rw [if_neg h0]
    exact vdi_rw_splits_length_pos offset total (Nat.pos_of_ne_zero h0)

/-! ## Claim theorems for copy-on-write and reads -/

theorem vid_to_data_oid_inj (v w idx : Nat) (hv : v < 2 ^ 32)
    (hw : w < 2 ^ 32) (hne : v ≠ w) :
    vid_to_data_oid v idx ≠ vid_to_data_oid w idx := by
  simp only [vid_to_data_oid, Nat.mod_eq_of_lt hv, Nat.mod_eq_of_lt hw]
  intro h
  exact hne (Nat.eq_of_mul_eq_mul_right (by norm_num)
    (Nat.add_right_cancel h))

theorem vid_to_data_oid_ne_zero (v idx : Nat) (hv0 : v ≠ 0) (hv : v < 2 ^ 32) :
    vid_to_data_oid v idx ≠ 0 := by
  simp only [vid_to_data_oid, Nat.mod_eq_of_lt hv]
  have h1 : 0 < v * 2 ^ 32 := Nat.mul_pos (Nat.pos_of_ne_zero hv0) (by norm_num)
  have h2 : 0 < v * 2 ^ 32 + idx % 2 ^ 32 :=
    lt_of_lt_of_le h1 (Nat.le_add_right _ _)
  exact Nat.pos_iff_ne_zero.mp h2

/-- C2: a write sub-request against an index owned by an ancestor vid a never
produces a request whose target is the ancestor object: whether it is
submitted or parked on the blocking queue, the request targets the object of
the writer vid and carries the ancestor object only as copy-on-write source;
when no create for that object is in flight it is issued as the single
combined create-and-write operation (VDI_CREATE with cow_oid set), with no
separate copy step; and vdi_create_respond updates the inode index entry to
the writer vid strictly before the create carrying the write payload is
reported complete. -/
theorem vdi_write_cow_preserves_ancestor
    (c : ClusterSt) (own a idx len start : Nat)
    (hown : own < 2 ^ 32) (ha32 : a < 2 ^ 32)
    (hvid : c.inode idx = a) (ha0 : a ≠ 0) (haw : a ≠ own)
    (creq : SheepRequest) (hcreq : data_oid_to_idx creq.oid = idx) :
    (∀ st2 act, rw_request_step c .vdi_write own idx len start = (st2, act) →
      ∀ r, act = .submitted r ∨ act = .blocked r →
        r.oid = vid_to_data_oid own idx
          ∧ r.oid ≠ vid_to_data_oid a idx
          ∧ r.cow_oid = vid_to_data_oid a idx)
    ∧ (c.inflight.contains (vid_to_data_oid own idx) = false →
        (rw_request_step c .vdi_write own idx len start).2
          = .submitted ⟨vid_to_data_oid own idx, vid_to_data_oid a idx,
              .vdi_create, start, len⟩)
    ∧ (∃ l₁ l₂, (vdi_create_respond c own creq).2
          = l₁ ++ RespondEvent.endReq creq :: l₂
        ∧ RespondEvent.inodeSet idx own ∈ l₁
        ∧ (vdi_create_respond c own creq).1.inode idx = own) := by
  have hne : own ≠ a := fun h => haw h.symm
  have hoid_ne : vid_to_data_oid own idx ≠ vid_to_data_oid a idx :=
    vid_to_data_oid_inj own a idx hown ha32 hne
  have hcow0 : vid_to_data_oid a idx ≠ 0 := vid_to_data_oid_ne_zero a idx ha0 ha32
  have hkey : (rw_request_step c .vdi_write own idx len start).2
      = SubAction.blocked ⟨vid_to_data_oid own idx, vid_to_data_oid a idx,
          .vdi_write, start, len⟩
    ∨ (rw_request_step c .vdi_write own idx len start).2
      = SubAction.submitted ⟨vid_to_data_oid own idx, vid_to_data_oid a idx,
          .vdi_create, start, len⟩ := by
    by_cases hc : vid_to_data_oid own idx ∈ c.inflight
    · left
      simp [rw_request_step, hvid, ha0, haw, hcow0, hc]
    · right
      simp [rw_request_step, hvid, ha0, haw, hcow0, hc]
  refine ⟨?_, ?_, ?_⟩
  · intro st2 act heq r hr
    have hact : (rw_request_step c .vdi_write own idx len start).2 = act := by
      rw [heq]
    rcases hkey with hk | hk <;> rw [hact] at hk <;>
      rcases hr with hr | hr <;> subst hr <;> simp_all
  · intro hc
    have hc2 : vid_to_data_oid own idx ∉ c.inflight := by simpa using hc
    rcases hkey with hk | hk
    · exfalso
      simp [rw_request_step, hvid, ha0, haw, hcow0, hc2] at hk
    · exact hk
  · refine ⟨[RespondEvent.lockW, RespondEvent.inodeSet idx own,
        RespondEvent.unlockW,
        RespondEvent.submitReq ⟨vid_to_vdi_oid own, 0, .vdi_write,
          SD_INODE_HEADER_SIZE + sizeof_vid * idx, sizeof_vid⟩]
        ++ (c.blocking.filter (fun r => r.oid == creq.oid)).map
            RespondEvent.submitReq, [], ?_, ?_, ?_⟩
    · simp [vdi_create_respond, hcreq]
    · simp
    · simp [vdi_create_respond, hcreq]

/-- Witness for C2: ancestor vid 3 at index 5, writer vid 7, no create in
flight. -/
theorem vdi_write_cow_preserves_ancestor_witness :
    ((7 : Nat) < 2 ^ 32 ∧ (3 : Nat) < 2 ^ 32
      ∧ (ClusterSt.mk (fun _ => 3) [] []).inode 5 = 3
      ∧ (3 : Nat) ≠ 0 ∧ (3 : Nat) ≠ 7
      ∧ data_oid_to_idx (SheepRequest.mk (vid_to_data_oid 7 5)
          (vid_to_data_oid 3 5) .vdi_create 0 10).oid = 5)
    ∧ ((∀ st2 act,
          rw_request_step (ClusterSt.mk (fun _ => 3) [] []) .vdi_write 7 5 10 0
            = (st2, act) →
          ∀ r, act = .submitted r ∨ act = .blocked r →
            r.oid = vid_to_data_oid 7 5
              ∧ r.oid ≠ vid_to_data_oid 3 5
              ∧ r.cow_oid = vid_to_data_oid 3 5)
      ∧ ((ClusterSt.mk (fun _ => 3) [] []).inflight.contains
            (vid_to_data_oid 7 5) = false →
          (rw_request_step (ClusterSt.mk (fun _ => 3) [] [])
              .vdi_write 7 5 10 0).2
            = .submitted ⟨vid_to_data_oid 7 5, vid_to_data_oid 3 5,
                .vdi_create, 0, 10⟩)
      ∧ (∃ l₁ l₂,
          (vdi_create_respond (ClusterSt.mk (fun _ => 3) [] []) 7
              (SheepRequest.mk (vid_to_data_oid 7 5)
                (vid_to_data_oid 3 5) .vdi_create 0 10)).2
            = l₁ ++ RespondEvent.endReq (SheepRequest.mk (vid_to_data_oid 7 5)
                (vid_to_data_oid 3 5) .vdi_create 0 10) :: l₂
          ∧ RespondEvent.inodeSet 5 7 ∈ l₁
          ∧ (vdi_create_respond (ClusterSt.mk (fun _ => 3) [] []) 7
              (SheepRequest.mk (vid_to_data_oid 7 5)
                (vid_to_data_oid 3 5) .vdi_create 0 10)).1.inode 5 = 7)) :=
  ⟨⟨by norm_num, by norm_num, rfl, by norm_num, by norm_num, by decide⟩,
    vdi_write_cow_preserves_ancestor (ClusterSt.mk (fun _ => 3) [] [])
      7 3 5 10 0 (by norm_num) (by norm_num) rfl (by norm_num) (by norm_num)
      (SheepRequest.mk (vid_to_data_oid 7 5) (vid_to_data_oid 3 5)
        .vdi_create 0 10) (by decide)⟩

/-- C4: a read sub-request whose index has inode entry 0 is ended on the spot
with no store submission and with state untouched, its content logically
zero-filled; a read of an index owned by an ancestor vid is redirected to the
ancestor object id and submitted normally (again leaving the state
untouched). -/
theorem vdi_read_unallocated_short_circuits
    (c ca : ClusterSt) (own a idx len start : Nat)
    (h0 : c.inode idx = 0)
    (hva : ca.inode idx = a) (ha0 : a ≠ 0) (haw : a ≠ own) :
    rw_request_step c .vdi_read own idx len start
        = (c, .ended ⟨vid_to_data_oid own idx, 0, .vdi_read, start, len⟩)
    ∧ ended_read_content ⟨vid_to_data_oid own idx, 0, .vdi_read, start, len⟩
        = List.replicate len 0
    ∧ rw_request_step ca .vdi_read own idx len start
        = (ca, .submitted ⟨vid_to_data_oid a idx, 0, .vdi_read, start, len⟩) := by
  refine ⟨?_, rfl, ?_⟩
  · simp [rw_request_step, h0]
  · simp [rw_request_step, submit_req, hva, ha0, haw]

/-- Witness for C4: unallocated index and an index owned by ancestor vid 3,
for a reader whose own vid is 7. -/
theorem vdi_read_unallocated_short_circuits_witness :
    ((ClusterSt.mk (fun _ => 0) [] []).inode 5 = 0
      ∧ (ClusterSt.mk (fun _ => 3) [] []).inode 5 = 3
      ∧ (3 : Nat) ≠ 0 ∧ (3 : Nat) ≠ 7)
    ∧ (rw_request_step (ClusterSt.mk (fun _ => 0) [] []) .vdi_read 7 5 10 0
          = (ClusterSt.mk (fun _ => 0) [] [],
              .ended ⟨vid_to_data_oid 7 5, 0, .vdi_read, 0, 10⟩)
        ∧ ended_read_content ⟨vid_to_data_oid 7 5, 0, .vdi_read, 0, 10⟩
          = List.replicate 10 0
        ∧ rw_request_step (ClusterSt.mk (fun _ => 3) [] []) .vdi_read 7 5 10 0
          = (ClusterSt.mk (fun _ => 3) [] [],
              .submitted ⟨vid_to_data_oid 3 5, 0, .vdi_read, 0, 10⟩)) :=
  ⟨⟨rfl, rfl, by norm_num, by norm_num⟩,
    vdi_read_unallocated_short_circuits (ClusterSt.mk (fun _ => 0) [] [])
      (ClusterSt.mk (fun _ => 3) [] []) 7 3 5 10 0 rfl rfl (by norm_num)
      (by norm_num)⟩

/-! ## Claim theorems for the create race and create completion -/

theorem data_oid_to_idx_pack (own idx : Nat) (hidx : idx < 2 ^ 32) :
    data_oid_to_idx (vid_to_data_oid own idx) = idx := by
  simp only [data_oid_to_idx, vid_to_data_oid]
  omega

/-- C3: two write sub-requests racing for the same not-yet-created object
(inode entry 0, no create in flight), serialized at the granularity of the
shared-state critical sections: the first issues the single create (and
enters the inflight-create index); the second finds the oid in flight,
re-checks the inode entry under the blocking lock and, it being still
foreign, is appended to the blocking queue; when the create completes,
vdi_create_respond publishes the index-map update (inodeSet) strictly before
the parked write is resubmitted (FIFO), ends the create, and empties both the
inflight index and the queue; the resubmitted write is a plain VDI_WRITE,
completed by end_sheep_request per the client op table, so both requests
complete. The statement is symmetric in the two requests (swap len1, start1
with len2, start2), so exactly one of the two — the first to run — issues the
create. -/
theorem vdi_create_race_serialized
    (c0 : ClusterSt) (own idx len1 start1 len2 start2 : Nat)
    (hino : c0.inode idx = 0) (hinf : c0.inflight = [])
    (hblk : c0.blocking = []) (hown0 : own ≠ 0) (hidx : idx < 2 ^ 32) :
    rw_request_step c0 .vdi_write own idx len1 start1
        = ({ c0 with inflight := [vid_to_data_oid own idx] },
           .submitted ⟨vid_to_data_oid own idx, 0, .vdi_create, start1, len1⟩)
    ∧ rw_request_step { c0 with inflight := [vid_to_data_oid own idx] }
          .vdi_write own idx len2 start2
        = ({ c0 with
              inflight := [vid_to_data_oid own idx]
              blocking := [⟨vid_to_data_oid own idx, 0, .vdi_write,
                start2, len2⟩] },
           .blocked ⟨vid_to_data_oid own idx, 0, .vdi_write, start2, len2⟩)
    ∧ (vdi_create_respond
          { c0 with
            inflight := [vid_to_data_oid own idx]
            blocking := [⟨vid_to_data_oid own idx, 0, .vdi_write,
              start2, len2⟩] }
          own ⟨vid_to_data_oid own idx, 0, .vdi_create, start1, len1⟩).2
        = [RespondEvent.lockW, RespondEvent.inodeSet idx own,
           RespondEvent.unlockW,
           RespondEvent.submitReq ⟨vid_to_vdi_oid own, 0, .vdi_write,
             SD_INODE_HEADER_SIZE + sizeof_vid * idx, sizeof_vid⟩,
           RespondEvent.submitReq ⟨vid_to_data_oid own idx, 0, .vdi_write,
             start2, len2⟩,
           RespondEvent.endReq ⟨vid_to_data_oid own idx, 0, .vdi_create,
             start1, len1⟩]
    ∧ (vdi_create_respond
          { c0 with
            inflight := [vid_to_data_oid own idx]
            blocking := [⟨vid_to_data_oid own idx, 0, .vdi_write,
              start2, len2⟩] }
          own ⟨vid_to_data_oid own idx, 0, .vdi_create, start1, len1⟩).1.inode
          idx = own
    ∧ (vdi_create_respond
          { c0 with
            inflight := [vid_to_data_oid own idx]
            blocking := [⟨vid_to_data_oid own idx, 0, .vdi_write,
              start2, len2⟩] }
          own ⟨vid_to_data_oid own idx, 0, .vdi_create, start1, len1⟩).1.inflight
          = []
    ∧ (vdi_create_respond
          { c0 with
            inflight := [vid_to_data_oid own idx]
            blocking := [⟨vid_to_data_oid own idx, 0, .vdi_write,
              start2, len2⟩] }
          own ⟨vid_to_data_oid own idx, 0, .vdi_create, start1, len1⟩).1.blocking
          = []
    ∧ (client_sd_ops .vdi_write).respond = .end_request
    ∧ (client_sd_ops .vdi_create).respond = .create_respond := by
  have hdii : data_oid_to_idx (vid_to_data_oid own idx) = idx :=
    data_oid_to_idx_pack own idx hidx
  refine ⟨?_, ?_, ?_, ?_, ?_, ?_, rfl, rfl⟩
  · simp [rw_request_step, submit_req, hino, hinf]
  · simp [rw_request_step, hino, hblk]
  · simp [vdi_create_respond, hdii]
  · simp [vdi_create_respond, hdii]
  · simp [vdi_create_respond, hinf]
  · simp [vdi_create_respond, hblk]

/-- Witness for C3: both writers target index 5 of a VDI with vid 7, starting
from an empty inode map, empty inflight index and empty queue. -/
theorem vdi_create_race_serialized_witness :
    ((ClusterSt.mk (fun _ => 0) [] []).inode 5 = 0
      ∧ (ClusterSt.mk (fun _ => 0) [] []).inflight = []
      ∧ (ClusterSt.mk (fun _ => 0) [] []).blocking = []
      ∧ (7 : Nat) ≠ 0 ∧ (5 : Nat) < 2 ^ 32)
    ∧ rw_request_step (ClusterSt.mk (fun _ => 0) [] []) .vdi_write 7 5 10 0
        = ({ ClusterSt.mk (fun _ => 0) [] [] with
              inflight := [vid_to_data_oid 7 5] },
           .submitted ⟨vid_to_data_oid 7 5, 0, .vdi_create, 0, 10⟩) :=
  ⟨⟨rfl, rfl, rfl, by norm_num, by norm_num⟩,
    (vdi_create_race_serialized (ClusterSt.mk (fun _ => 0) [] [])
      7 5 10 0 20 0 rfl rfl rfl (by norm_num) (by norm_num)).1⟩

/-- C5: vdi_create_respond performs, in program order: take the per-VDI
writer lock, set the inode index entry to the own vid, release the lock
(the first three events); submit the write of exactly the sizeof(vid)-byte
updated slot, at offset SD_INODE_HEADER_SIZE + sizeof(vid) * idx of the inode
object of the vdi (the fourth event); then dequeue and resubmit exactly the
blocking sub-requests waiting on the created oid, in FIFO (queue) order,
before finally ending the create; the in-memory inode entry is the own vid
afterwards and the oid has left the inflight-create index. -/
theorem vdi_create_respond_sequence (c : ClusterSt) (own : Nat)
    (req : SheepRequest) :
    (vdi_create_respond c own req).2.take 3
        = [RespondEvent.lockW,
           RespondEvent.inodeSet (data_oid_to_idx req.oid) own,
           RespondEvent.unlockW]
    ∧ (vdi_create_respond c own req).2.get? 3
        = some (RespondEvent.submitReq
            ⟨vid_to_vdi_oid own, 0, .vdi_write,
              SD_INODE_HEADER_SIZE + sizeof_vid * data_oid_to_idx req.oid,
              sizeof_vid⟩)
    ∧ (vdi_create_respond c own req).2.drop 4
        = (c.blocking.filter (fun r => r.oid == req.oid)).map
            RespondEvent.submitReq ++ [RespondEvent.endReq req]
    ∧ (vdi_create_respond c own req).1.inode (data_oid_to_idx req.oid) = own
    ∧ (vdi_create_respond c own req).1.inflight = c.inflight.erase req.oid := by
  refine ⟨?_, ?_, ?_, ?_, rfl⟩
  · simp [vdi_create_respond]
  · simp [vdi_create_respond]
  · simp [vdi_create_respond]
  · simp [vdi_create_respond]

/-! ## Recovery-completion lemmas -/

theorem recovery_note_state (sys : Nat) (view : List Nat) (z ms : Nat)
    (hc : Bool) (st1 : RecoverySt) (node : Nat) :
    (recovery_note sys view z ms hc st1 node).1
      = ⟨st1.latest_epoch,
          (st1.recovereds ++ [node]).insertionSort (· ≤ ·)⟩ := by
  simp only [recovery_note]
  split
  · rfl
  · split <;> rfl

theorem recovery_note_fired_iff (sys : Nat) (view : List Nat) (z ms : Nat)
    (hc : Bool) (st1 : RecoverySt) (node : Nat) :
    (recovery_note sys view z ms hc st1 node).2 = true
      ↔ (sys = st1.latest_epoch
          ∧ view.length
            = ((st1.recovereds ++ [node]).insertionSort (· ≤ ·)).length
          ∧ (∀ n ∈ (st1.recovereds ++ [node]).insertionSort (· ≤ ·), n ∈ view)
          ∧ ms ≤ z ∧ hc = true) := by
  simp only [recovery_note]
  split
  · next h1 =>
    exact iff_of_false (by simp) (fun hcond => h1 (by simpa using hcond.1))
  · next h1 =>
    have h1x : sys = st1.latest_epoch := by simpa using h1
    split
    · next h2 => exact iff_of_true rfl ⟨h1x, h2⟩
    · next h2 => exact iff_of_false (by simp) (fun hcond => h2 hcond.2)

theorem recovery_step_same_state (view : List Nat) (z ms e : Nat)
    (acc : List Nat) (r : Nat) :
    (cluster_recovery_completion e view z ms true ⟨e, acc⟩ e r).1
      = ⟨e, ((acc ++ [r]).insertionSort (· ≤ ·))⟩ := by
  unfold cluster_recovery_completion
  simp only [Nat.lt_irrefl, if_false]
  exact recovery_note_state e view z ms true ⟨e, acc⟩ r

theorem recovery_step_fired_iff (view : List Nat) (z ms e : Nat)
    (acc : List Nat) (r : Nat) :
    (cluster_recovery_completion e view z ms true ⟨e, acc⟩ e r).2 = true
      ↔ (view.length = ((acc ++ [r]).insertionSort (· ≤ ·)).length
          ∧ (∀ n ∈ (acc ++ [r]).insertionSort (· ≤ ·), n ∈ view)
          ∧ ms ≤ z) := by
  unfold cluster_recovery_completion
  simp only [Nat.lt_irrefl, if_false]
  rw [recovery_note_fired_iff]
  simp

/-- A report for a strictly newer epoch behaves exactly as if the accumulator
had been reset first. -/
theorem recovery_step_reset (view : List Nat) (z ms e : Nat)
    (st0 : RecoverySt) (hlt : st0.latest_epoch < e) (r : Nat) :
    cluster_recovery_completion e view z ms true st0 e r
      = cluster_recovery_completion e view z ms true ⟨e, []⟩ e r := by
  unfold cluster_recovery_completion
  have h1 : ¬ e < st0.latest_epoch := by omega
  simp [h1, hlt]

theorem recovery_run_cons (sys : Nat) (view : List Nat) (z ms : Nat)
    (hc : Bool) (st : RecoverySt) (p : Nat × Nat) (ps : List (Nat × Nat)) :
    recovery_run sys view z ms hc st (p :: ps)
      = ((recovery_run sys view z ms hc
            (cluster_recovery_completion sys view z ms hc st p.1 p.2).1 ps).1,
         (if (cluster_recovery_completion sys view z ms hc st p.1 p.2).2
            then 1 else 0)
           + (recovery_run sys view z ms hc
              (cluster_recovery_completion sys view z ms hc st p.1 p.2).1
              ps).2) := rfl

/-- Feeding the remaining members one at a time into an accumulator that
already holds the others triggers cleanup exactly once, at the final
report. -/
theorem recovery_run_fires_once (view : List Nat) (z ms e : Nat)
    (hz : ms ≤ z) :
    ∀ rs acc, rs ≠ [] → (acc ++ rs).Perm view →
      (recovery_run e view z ms true ⟨e, acc⟩
        (rs.map fun n => (e, n))).2 = 1 := by
  intro rs
  induction rs with
  | nil => intro acc h _; exact absurd rfl h
  | cons r rs ih =>
    intro acc _ hperm
    rw [List.map_cons, recovery_run_cons]
    have hsort : ((acc ++ [r]).insertionSort (· ≤ ·)).Perm (acc ++ [r]) :=
      List.perm_insertionSort _ _
    cases rs with
    | nil =>
      have hfired : (cluster_recovery_completion e view z ms true
          ⟨e, acc⟩ e r).2 = true := by
        rw [recovery_step_fired_iff]
        refine ⟨?_, ?_, hz⟩
        · rw [hsort.length_eq]
          simpa using hperm.length_eq.symm
        · intro n hn
          exact (hperm.mem_iff).mp (by simpa using hsort.mem_iff.mp hn)
      rw [hfired]
      simp [recovery_run]
    | cons r2 rs2 =>
      have hnof : (cluster_recovery_completion e view z ms true
          ⟨e, acc⟩ e r).2 = false := by
        rw [Bool.eq_false_iff]
        intro hcond
        rw [recovery_step_fired_iff] at hcond
        have hl1 : ((acc ++ [r]).insertionSort (· ≤ ·)).length
            = acc.length + 1 := by
          rw [hsort.length_eq]; simp
        have hl2 : view.length = acc.length + 1 + (rs2.length + 1) := by
          have hle := hperm.length_eq
          simp at hle
          omega
        omega
      rw [hnof, recovery_step_same_state]
      simp only [Bool.false_eq_true, if_false, Nat.zero_add]
      refine ih ((acc ++ [r]).insertionSort (· ≤ ·)) (by simp) ?_
      refine (hsort.append_right (r2 :: rs2)).trans ?_
      have hstep2 : (acc ++ [r]) ++ (r2 :: rs2) = acc ++ (r :: r2 :: rs2) := by
        simp
      rw [hstep2]
      exact hperm

/-- Any firing of cleanup happens at the current sys epoch, with the zone
count at least the strip minimum, the store hook present, and the
accumulated recovered array the size of the view and contained in it. -/
theorem recovery_fired_conditions (sys : Nat) (view : List Nat)
    (z ms : Nat) (hc : Bool) (st : RecoverySt) (ep n : Nat)
    (hfired : (cluster_recovery_completion sys view z ms hc st ep n).2
      = true) :
    (cluster_recovery_completion sys view z ms hc st ep n).1.latest_epoch
        = sys
      ∧ view.length
        = (cluster_recovery_completion sys view z ms hc
            st ep n).1.recovereds.length
      ∧ (∀ x ∈ (cluster_recovery_completion sys view z ms hc
            st ep n).1.recovereds, x ∈ view)
      ∧ ms ≤ z ∧ hc = true := by
  unfold cluster_recovery_completion at hfired ⊢
  split at hfired
  · simp at hfired
  · next h1 =>
    rw [if_neg h1]
    obtain ⟨hsys, hlen, hmem, hzz, hhc⟩ :=
      (recovery_note_fired_iff _ _ _ _ _ _ _).mp hfired
    rw [recovery_note_state]
    exact ⟨hsys.symm, hlen, hmem, hzz, hhc⟩

/-- C6: for the non-manual recovery-completion handler, a report older than
the newest epoch seen is ignored outright; a report for a newer epoch resets
the accumulator to just the reporting node; whenever cleanup is triggered it
is at the current sys epoch, with the zone count at least
ec_max_data_strip(), the store hook present, and (for duplicate-free
accumulator and view) the accumulated recovered set exactly equal to the
current membership view; and over a full round in which every member of the
view reports exactly once for epoch e0 — the current epoch — starting below
e0, cleanup runs exactly once. -/
theorem cluster_recovery_completion_cleanup_once
    (sys z ms : Nat) (view : List Nat) (hc : Bool)
    (st1 : RecoverySt) (ep1 n1 : Nat)
    (st2 : RecoverySt) (ep2 n2 : Nat)
    (st0 : RecoverySt) (e0 : Nat) (rs : List Nat)
    (h_old : ep1 < st1.latest_epoch)
    (h_new : st2.latest_epoch < ep2)
    (hview : view.Nodup)
    (hz : ms ≤ z)
    (hrs_ne : rs ≠ [])
    (hrs : rs.Perm view)
    (h_lt : st0.latest_epoch < e0) :
    cluster_recovery_completion sys view z ms hc st1 ep1 n1 = (st1, false)
    ∧ (cluster_recovery_completion sys view z ms hc st2 ep2 n2).1
        = ⟨ep2, [n2]⟩
    ∧ (∀ st3 ep3 n3,
        (cluster_recovery_completion sys view z ms hc st3 ep3 n3).2 = true →
          ms ≤ z ∧ hc = true
          ∧ (cluster_recovery_completion sys view z ms hc
              st3 ep3 n3).1.latest_epoch = sys
          ∧ ((cluster_recovery_completion sys view z ms hc
                st3 ep3 n3).1.recovereds.Nodup →
              ∀ x, x ∈ (cluster_recovery_completion sys view z ms hc
                st3 ep3 n3).1.recovereds ↔ x ∈ view))
    ∧ (recovery_run e0 view z ms true st0 (rs.map fun n => (e0, n))).2
        = 1 := by
  refine ⟨?_, ?_, ?_, ?_⟩
  · simp [cluster_recovery_completion, h_old]
  · unfold cluster_recovery_completion
    rw [if_neg (by omega), if_pos h_new, recovery_note_state]
    simp [List.insertionSort, List.orderedInsert]
  · intro st3 ep3 n3 hf
    obtain ⟨hlat, hlen, hmem, hz2, hhc⟩ :=
      recovery_fired_conditions sys view z ms hc st3 ep3 n3 hf
    refine ⟨hz2, hhc, hlat, ?_⟩
    intro hnodup x
    have hsub : (cluster_recovery_completion sys view z ms hc
        st3 ep3 n3).1.recovereds.toFinset ⊆ view.toFinset := by
      intro y hy
      exact List.mem_toFinset.mpr (hmem y (List.mem_toFinset.mp hy))
    have hcard : view.toFinset.card
        ≤ (cluster_recovery_completion sys view z ms hc
            st3 ep3 n3).1.recovereds.toFinset.card := by
      rw [List.toFinset_card_of_nodup hview, List.toFinset_card_of_nodup hnodup]
      omega
    have hfin := Finset.eq_of_subset_of_card_le hsub hcard
    constructor
    · intro hx
      exact hmem x hx
    · intro hx
      have : x ∈ view.toFinset := List.mem_toFinset.mpr hx
      rw [← hfin] at this
      exact List.mem_toFinset.mp this
  · cases rs with
    | nil => exact absurd rfl hrs_ne
    | cons r rsx =>
      have hD := recovery_run_fires_once view z ms e0 hz (r :: rsx) []
        (by simp) (by simpa using hrs)
      rw [List.map_cons, recovery_run_cons] at hD ⊢
      rw [recovery_step_reset view z ms e0 st0 h_lt r]
      exact hD

/-- Witness for C6: view of two nodes 4 and 9, a stale report against a
newer accumulator, a resetting report, and a full round of reports at epoch
3 starting from a stale accumulator. -/
theorem cluster_recovery_completion_cleanup_once_witness :
    ((4 : Nat) < (RecoverySt.mk 5 []).latest_epoch
      ∧ (RecoverySt.mk 2 [8]).latest_epoch < 6
      ∧ ([4, 9] : List Nat).Nodup
      ∧ (2 : Nat) ≤ 3
      ∧ ([9, 4] : List Nat) ≠ []
      ∧ ([9, 4] : List Nat).Perm [4, 9]
      ∧ (RecoverySt.mk 1 [7]).latest_epoch < 3)
    ∧ (recovery_run 3 [4, 9] 3 2 true (RecoverySt.mk 1 [7])
        ([9, 4].map fun n => (3, n))).2 = 1 :=
  ⟨⟨by norm_num, by norm_num, by decide, by norm_num, by decide,
      List.Perm.swap 4 9 [], by norm_num⟩,
    (cluster_recovery_completion_cleanup_once 3 3 2 [4, 9] true
      (RecoverySt.mk 5 []) 4 0 (RecoverySt.mk 2 [8]) 6 0
      (RecoverySt.mk 1 [7]) 3 [9, 4]
      (by norm_num) (by norm_num) (by decide) (by norm_num) (by decide)
      (List.Perm.swap 4 9 []) (by norm_num)).2.2.2⟩

/-! ## Claim theorems for cluster_make_fs, forced recovery and the op table -/

/-- C7: on full success cluster_make_fs resets the epoch to 0, advances it by
exactly one (to 1) and sets the status to OK; every failure branch — unknown
store driver, format failure, init failure, epoch-log write failure — returns
a non-success code and leaves the status untouched (in particular it never
sets it to OK). -/
theorem cluster_make_fs_success_and_failures
    (st : SysSt) (fr ir a b : Nat) (c d : Bool)
    (hf : fr ≠ SD_RES_SUCCESS) (hi : ir ≠ SD_RES_SUCCESS) :
    cluster_make_fs true SD_RES_SUCCESS SD_RES_SUCCESS true st
        = ( SD_RES_SUCCESS, ⟨1, SDStatus.OK⟩)
    ∧ (cluster_make_fs false a b c st = ( SD_RES_NO_STORE, st)
        ∧ SD_RES_NO_STORE ≠ SD_RES_SUCCESS)
    ∧ cluster_make_fs true fr b d st = (fr, st)
    ∧ cluster_make_fs true SD_RES_SUCCESS ir d st = (ir, st)
    ∧ (cluster_make_fs true SD_RES_SUCCESS SD_RES_SUCCESS false st
        = ( SD_RES_EIO, ⟨1, st.status⟩)
        ∧ SD_RES_EIO ≠ SD_RES_SUCCESS) := by
  refine ⟨?_, ⟨?_, by norm_num [SD_RES_NO_STORE, SD_RES_SUCCESS]⟩, ?_, ?_,
    ⟨?_, by norm_num [ SD_RES_EIO, SD_RES_SUCCESS]⟩⟩
  · simp [cluster_make_fs]
  · simp [cluster_make_fs]
  · simp [cluster_make_fs, hf]
  · simp [cluster_make_fs, hi]
  · simp [cluster_make_fs]

/-- Witness for C7 with format and init failing with code 1 in the failure
conjuncts, from a WAIT cluster at epoch 7. -/
theorem cluster_make_fs_success_and_failures_witness :
    ((1 : Nat) ≠ SD_RES_SUCCESS
      ∧ (1 : Nat) ≠ SD_RES_SUCCESS)
    ∧ cluster_make_fs true SD_RES_SUCCESS SD_RES_SUCCESS true ⟨7, SDStatus.WAIT⟩
        = ( SD_RES_SUCCESS, ⟨1, SDStatus.OK⟩) :=
  ⟨⟨by norm_num [SD_RES_SUCCESS], by norm_num [SD_RES_SUCCESS]⟩,
    (cluster_make_fs_success_and_failures ⟨7, SDStatus.WAIT⟩ 1 1 0 0 true true
      (by norm_num [SD_RES_SUCCESS]) (by norm_num [SD_RES_SUCCESS])).1⟩

/-- C8: the forced-recovery work phase returns SD_RES_FORCE_RECOVER whenever
the local status is not WAIT or no view is attached to the request; the main
phase, when the epoch recorded by the work phase no longer equals the current
epoch, returns SD_RES_FORCE_RECOVER leaving epoch and status untouched
(whether or not the epoch log could be written); and an epoch-log write
failure on the matching-epoch path is a panic — the process dies (modelled as
none) instead of any result code being returned. -/
theorem cluster_force_recover_error_paths
    (status : SDStatus) (hv : Bool) (ov : Option Nat) (dl ep : Nat)
    (st : SysSt) (rsp_ep : Nat)
    (hs : status ≠ SDStatus.WAIT) (hne : rsp_ep ≠ st.epoch) :
    (cluster_force_recover_work status hv ov dl ep).1 = SD_RES_FORCE_RECOVER
    ∧ (cluster_force_recover_work SDStatus.WAIT false ov dl ep).1
        = SD_RES_FORCE_RECOVER
    ∧ cluster_force_recover_main rsp_ep true st
        = some ( SD_RES_FORCE_RECOVER, st)
    ∧ cluster_force_recover_main rsp_ep false st
        = some ( SD_RES_FORCE_RECOVER, st)
    ∧ cluster_force_recover_main st.epoch false st = none := by
  refine ⟨?_, ?_, ?_, ?_, ?_⟩
  · simp [cluster_force_recover_work, hs]
  · simp [cluster_force_recover_work]
  · simp [cluster_force_recover_main, hne]
  · simp [cluster_force_recover_main, hne]
  · simp [cluster_force_recover_main]

/-- Witness for C8: status OK (not WAIT) at the work phase; main phase with
rsp epoch 2 against current epoch 3. -/
theorem cluster_force_recover_error_paths_witness :
    (SDStatus.OK ≠ SDStatus.WAIT ∧ (2 : Nat) ≠ (SysSt.mk 3 SDStatus.WAIT).epoch)
    ∧ (cluster_force_recover_work SDStatus.OK true (some 2) 999 3).1
        = SD_RES_FORCE_RECOVER :=
  ⟨⟨by decide, by norm_num⟩,
    (cluster_force_recover_error_paths SDStatus.OK true (some 2) 999 3
      (SysSt.mk 3 SDStatus.WAIT) 2 (by decide) (by norm_num)).1⟩

/-- C9 as stated is false on the code: the STAT_RECOVERY entry of sd_ops
carries no force flag, so is_force_op is false for it. -/
theorem sd_ops_stat_recovery_not_force :
    is_force_op (get_sd_op SDOp.SD_OP_STAT_RECOVERY) = false := by decide

/-- C9 (amended): of the operations the claim names, STAT_CLUSTER, SHUTDOWN
and FORCE_RECOVER do carry force = true in the sd_ops table — is_force_op
returns true for each — but STAT_RECOVERY does not: its descriptor leaves
force at its default false, so is_force_op returns false and STAT_RECOVERY
does not bypass the not-operational gate. -/
theorem sd_ops_force_flags :
    is_force_op (get_sd_op SDOp.SD_OP_STAT_CLUSTER) = true
    ∧ is_force_op (get_sd_op SDOp.SD_OP_SHUTDOWN) = true
    ∧ is_force_op (get_sd_op SDOp.SD_OP_FORCE_RECOVER) = true
    ∧ is_force_op (get_sd_op SDOp.SD_OP_STAT_RECOVERY) = false := by decide
